import Mathlib

/-!
# Galaxy point cloud and frame update of `src/scripts.js`

A shallow embedding of the procedural part of `scripts.js`:
`createGalaxy` (lines 62-99), `createPlanets` (lines 147-195), `animate`
(lines 232-266), `initGalaxy` (lines 29-60), `handleGalaxyError`
(lines 268-271), the `mousemove` and `resize` handlers (lines 274-286) and the
`DOMContentLoaded` dispatch on `window.THREE` (lines 432-437).

Conventions of the embedding.

* JavaScript numbers are modelled by real numbers: every arithmetic operation,
  `Math.cos`, `Math.sin`, `Math.sqrt` and `Math.pow` is exact.  Rounding of
  IEEE doubles, the narrowing store into a `Float32Array`, `NaN` and the
  infinities are outside the model.
* `Math.random` is a stream `rnd : ℕ → ℝ` read through a cursor that counts
  the calls made so far; call number `c` returns `rnd c`.
* Module-level variables (`time`, `mouseX`, `mouseY`, `isInitialized`,
  `camera`, `galaxySystem`, `planetMeshes`) are the fields of `State`, and
  every function that mutates them is a function `State → State`.
* `requestAnimationFrame(animate)` increments `rafQueue`, the number of
  queued callbacks; the host runs one of them per `Event.animationFrame`.
* Calls into the rendering library that leave the module-level variables
  alone (`scene.add`, `camera.lookAt`, `renderer.render`, shader set-up) have
  no counterpart in the state; where they may throw is an explicit parameter
  of `initGalaxy`.
-/

noncomputable section

namespace Galaxy

/-! ## Data model -/

/-- Three coordinates, as in `THREE.Vector3` and in the `[x, y, z]` arrays of
`CONFIG.planets`. -/
structure Vec3 where
  x : ℝ
  y : ℝ
  z : ℝ

/-- The three channels of a `THREE.Color`. -/
structure Color where
  r : ℝ
  g : ℝ
  b : ℝ

/-- Modelled from the spec: `THREE.Color.lerp` belongs to the rendering
library, which is not part of the repository; the spec describes it as linear
interpolation, `this.c += (target.c - this.c) * alpha` on each channel. -/
def Color.lerp (c target : Color) (alpha : ℝ) : Color :=
  { r := c.r + (target.r - c.r) * alpha
    g := c.g + (target.g - c.g) * alpha
    b := c.b + (target.b - c.b) * alpha }

/-- The three anchor colours `CONFIG.galaxy.colors.{inner, middle, outer}`
after `new THREE.Color(...)`; the hexadecimal parsing is the library's, so the
parsed channels are the input here. -/
structure GalaxyColors where
  inner : Color
  middle : Color
  outer : Color

/-- The record `CONFIG.galaxy` (lines 3-14). -/
structure GalaxyConfig where
  particleCount : ℕ
  maxRadius : ℝ
  branches : ℕ
  spin : ℝ
  colors : GalaxyColors

/-- One entry of `CONFIG.planets` (lines 15-20); the two shader colours are
passed to the material only and are left out. -/
structure PlanetConfig where
  radius : ℝ
  position : Vec3
  speed : ℝ

/-- The object literal stored in `planet.userData` (lines 186-190). -/
structure UserData where
  speed : ℝ
  originalPosition : Vec3
  orbitRadius : ℝ

/-- The mutable part of a planet mesh: `position`, `rotation.y`, the
`uTime` uniform of its material, the sphere radius and `userData`. -/
structure Planet where
  radius : ℝ
  position : Vec3
  rotationY : ℝ
  uTime : ℝ
  userData : UserData

/-- The point cloud `galaxySystem`: the three attribute buffers written by
`createGalaxy`, `rotation.y` and the `uTime` uniform. -/
structure GalaxySystem where
  positions : List ℝ
  colors : List ℝ
  sizes : List ℝ
  rotationY : ℝ
  uTime : ℝ

/-- The module-level variables of lines 24-26, the queue of animation-frame
callbacks and the visibility of the canvas. -/
structure State where
  isInitialized : Bool
  time : ℝ
  mouseX : ℝ
  mouseY : ℝ
  camera : Vec3
  galaxySystem : Option GalaxySystem
  planetMeshes : List Planet
  rafQueue : ℕ
  canvasHidden : Bool

/-- The values of the `let` declarations at lines 24-26 when the script has
loaded.  `camera` is unassigned until `initGalaxy` runs and is read only behind
the `isInitialized` guards; it is given the origin here. -/
def State.initial : State :=
  { isInitialized := false
    time := 0
    mouseX := 0
    mouseY := 0
    camera := ⟨0, 0, 0⟩
    galaxySystem := none
    planetMeshes := []
    rafQueue := 0
    canvasHidden := false }

/-! ## `createGalaxy` -/

/-- The variables of the `for` loop of `createGalaxy`: the three typed arrays
and the number of `Math.random` calls made so far. -/
structure GalaxyBuffers where
  positions : List ℝ
  colors : List ℝ
  sizes : List ℝ
  cursor : ℕ

/-- Lines 66-68: the arrays as allocated, zero-filled, before the loop. -/
def GalaxyBuffers.alloc (particleCount : ℕ) : GalaxyBuffers :=
  { positions := List.replicate (particleCount * 3) 0
    colors := List.replicate (particleCount * 3) 0
    sizes := List.replicate particleCount 0
    cursor := 0 }

/-- Line 77: `Math.pow(Math.random(), 0.6) * maxRadius`, the draw being `u`. -/
def radiusOf (cfg : GalaxyConfig) (u : ℝ) : ℝ :=
  u ^ (0.6 : ℝ) * cfg.maxRadius

/-- Line 79: `(i % branches) * (Math.PI * 2) / branches`. -/
def branchAngle (cfg : GalaxyConfig) (i : ℕ) : ℝ :=
  ((i % cfg.branches : ℕ) : ℝ) * (Real.pi * 2) / (cfg.branches : ℝ)

/-- Lines 81-83: `Math.pow(Math.random(), 3) * (Math.random() < 0.5 ? 1 : -1) * scale`,
with `u` the first draw and `v` the second. -/
def jitter (u v scale : ℝ) : ℝ :=
  u ^ 3 * (if v < 0.5 then 1 else -1) * scale

/-- Lines 90-92: the clone of `colorInner` after the two `lerp` calls. -/
def mixedColor (cfg : GalaxyConfig) (radius : ℝ) : Color :=
  (cfg.colors.inner.lerp cfg.colors.middle (radius / cfg.maxRadius)).lerp
    cfg.colors.outer ((radius / cfg.maxRadius) ^ (0.5 : ℝ))

/-- Lines 77-87 of the loop body for index `i`, entered with cursor `c`: the
three numbers stored at `positions[i3]`, `positions[i3 + 1]` and
`positions[i3 + 2]`.  The draws are `rnd c` for the radius and
`rnd (c + 1)`, ..., `rnd (c + 6)` for the three jitter terms, in the order in
which the body calls `Math.random`. -/
def particlePosition (cfg : GalaxyConfig) (rnd : ℕ → ℝ) (c i : ℕ) : Vec3 :=
  let radius := radiusOf cfg (rnd c)
  let spinAngle := radius * cfg.spin
  let randomX := jitter (rnd (c + 1)) (rnd (c + 2)) 15
  let randomY := jitter (rnd (c + 3)) (rnd (c + 4)) 5
  let randomZ := jitter (rnd (c + 5)) (rnd (c + 6)) 15
  { x := Real.cos (branchAngle cfg i + spinAngle) * radius + randomX
    y := randomY
    z := Real.sin (branchAngle cfg i + spinAngle) * radius + randomZ }

/-- Lines 90-96 of the loop body entered with cursor `c`: the colour whose
channels are stored at `colors[i3]`, `colors[i3 + 1]`, `colors[i3 + 2]`. -/
def particleColor (cfg : GalaxyConfig) (rnd : ℕ → ℝ) (c : ℕ) : Color :=
  mixedColor cfg (radiusOf cfg (rnd c))

/-- Line 98 of the loop body entered with cursor `c`: `Math.random() * 4 + 1`,
the eighth draw of the iteration. -/
def particleSize (rnd : ℕ → ℝ) (c : ℕ) : ℝ :=
  rnd (c + 7) * 4 + 1

/-- One iteration of the loop at lines 74-99 for index `i`: the writes into
the three arrays at `i3 = i * 3` (and at `i` for `sizes`), and the cursor moved
past the eight draws of the iteration. -/
def galaxyBody (cfg : GalaxyConfig) (rnd : ℕ → ℝ) (st : GalaxyBuffers) (i : ℕ) :
    GalaxyBuffers :=
  let c := st.cursor
  let i3 := i * 3
  let pos := particlePosition cfg rnd c i
  let mixed := particleColor cfg rnd c
  { positions := ((st.positions.set i3 pos.x).set (i3 + 1) pos.y).set (i3 + 2) pos.z
    colors := ((st.colors.set i3 mixed.r).set (i3 + 1) mixed.g).set (i3 + 2) mixed.b
    sizes := st.sizes.set i (particleSize rnd c)
    cursor := c + 8 }

/-- The loop `for (let i = 0; i < particleCount; i++)` run for its first `n`
iterations on the freshly allocated arrays. -/
def galaxyLoop (cfg : GalaxyConfig) (rnd : ℕ → ℝ) (n : ℕ) : GalaxyBuffers :=
  (List.range n).foldl (galaxyBody cfg rnd) (GalaxyBuffers.alloc cfg.particleCount)

/-- The arrays and cursor that `createGalaxy` has when its loop ends. -/
def createGalaxyBuffers (cfg : GalaxyConfig) (rnd : ℕ → ℝ) : GalaxyBuffers :=
  galaxyLoop cfg rnd cfg.particleCount

/-- `createGalaxy` (lines 62-145): the point cloud assigned to `galaxySystem`,
with the attribute buffers of the loop, no rotation and `uTime = 0`. -/
def createGalaxy (cfg : GalaxyConfig) (rnd : ℕ → ℝ) : GalaxySystem :=
  let b := createGalaxyBuffers cfg rnd
  { positions := b.positions
    colors := b.colors
    sizes := b.sizes
    rotationY := 0
    uTime := 0 }

/-! ## `createPlanets` -/

/-- The body of the `forEach` callback at lines 148-194 for one entry. -/
def createPlanet (planetConfig : PlanetConfig) : Planet :=
  { radius := planetConfig.radius
    position := planetConfig.position
    rotationY := 0
    uTime := 0
    userData :=
      { speed := planetConfig.speed
        originalPosition := planetConfig.position
        orbitRadius := Real.sqrt (planetConfig.position.x ^ 2 + planetConfig.position.z ^ 2) } }

/-- `createPlanets` (lines 147-195): every entry of `CONFIG.planets` is pushed
onto `planetMeshes` in order. -/
def createPlanets (planets : List PlanetConfig) (planetMeshes : List Planet) : List Planet :=
  planets.foldl (fun acc planetConfig => acc ++ [createPlanet planetConfig]) planetMeshes

/-! ## `animate` and the event handlers -/

/-- The callback of `planetMeshes.forEach` at lines 247-258, with the value of
`time` of the current frame. -/
def animatePlanet (time : ℝ) (planet : Planet) : Planet :=
  let userData := planet.userData
  let angle := time * userData.speed
  { planet with
    position :=
      { x := Real.cos angle * userData.orbitRadius
        y := planet.position.y
        z := Real.sin angle * userData.orbitRadius }
    rotationY := planet.rotationY + userData.speed * 2
    uTime := time }

/-- Lines 261-262: the two assignments to `camera.position`. -/
def cameraStep (mouseX mouseY : ℝ) (camera : Vec3) : Vec3 :=
  { x := camera.x + (mouseX * 0.5 - camera.x) * 0.02
    y := camera.y + (-mouseY * 0.3 - camera.y + 30) * 0.02
    z := camera.z }

/-- `animate` (lines 232-266). -/
def animate (s : State) : State :=
  if !s.isInitialized then s
  else
    let time := s.time + 0.01
    { s with
      rafQueue := s.rafQueue + 1
      time := time
      galaxySystem :=
        s.galaxySystem.map fun g => { g with rotationY := time * 0.1, uTime := time }
      planetMeshes := s.planetMeshes.map (animatePlanet time)
      camera := cameraStep s.mouseX s.mouseY s.camera }

/-- `handleGalaxyError` (lines 268-271): the canvas is hidden. -/
def handleGalaxyError (s : State) : State :=
  { s with canvasHidden := true }

/-- The `mousemove` listener (lines 274-277). -/
def onMouseMove (clientX clientY innerWidth innerHeight : ℝ) (s : State) : State :=
  { s with
    mouseX := (clientX - innerWidth / 2) / 100
    mouseY := (clientY - innerHeight / 2) / 100 }

/-- The `resize` listener (lines 280-286): it touches the projection matrix
and the renderer only, none of the modelled variables. -/
def onResize (s : State) : State :=
  if !s.isInitialized then s else s

/-! ## `initGalaxy` -/

/-- The statements of the `try` block of `initGalaxy` at which a call into the
rendering library may throw, in program order: lines 31-32, 34-35, 37-47, 49,
50, 51, 52 and the call `animate()` at line 55. -/
inductive InitStep where
  | scene
  | camera
  | renderer
  | galaxy
  | planets
  | stars
  | lighting
  | firstFrame

/-- Line 35: `camera.position.set(0, 30, 120)`. -/
def initCamera (s : State) : State :=
  { s with camera := ⟨0, 30, 120⟩ }

/-- Line 49, `createGalaxy()`, as a state update. -/
def initGalaxySystem (cfg : GalaxyConfig) (rnd : ℕ → ℝ) (s : State) : State :=
  { s with galaxySystem := some (createGalaxy cfg rnd) }

/-- Line 50, `createPlanets()`, as a state update. -/
def initPlanets (planets : List PlanetConfig) (s : State) : State :=
  { s with planetMeshes := createPlanets planets s.planetMeshes }

/-- Line 54: `isInitialized = true`. -/
def setInitialized (s : State) : State :=
  { s with isInitialized := true }

/-- `initGalaxy` (lines 29-60).  `fault` names the statement of the `try`
block that throws, if any: the statements before it have run, the `catch`
clause then calls `handleGalaxyError`.  A throwing set-up statement is taken to
leave no partial effect; `firstFrame` is an exception that leaves the first
`animate()` call at `renderer.render` (line 265), its last statement, after
every assignment of the frame has been made. -/
def initGalaxy (cfg : GalaxyConfig) (planets : List PlanetConfig) (rnd : ℕ → ℝ)
    (fault : Option InitStep) (s : State) : State :=
  match fault with
  | some .scene => handleGalaxyError s
  | some .camera => handleGalaxyError s
  | some .renderer => handleGalaxyError (initCamera s)
  | some .galaxy => handleGalaxyError (initCamera s)
  | some .planets => handleGalaxyError (initGalaxySystem cfg rnd (initCamera s))
  | some .stars =>
      handleGalaxyError (initPlanets planets (initGalaxySystem cfg rnd (initCamera s)))
  | some .lighting =>
      handleGalaxyError (initPlanets planets (initGalaxySystem cfg rnd (initCamera s)))
  | some .firstFrame =>
      handleGalaxyError
        (animate (setInitialized
          (initPlanets planets (initGalaxySystem cfg rnd (initCamera s)))))
  | none =>
      animate (setInitialized (initPlanets planets (initGalaxySystem cfg rnd (initCamera s))))

/-- Lines 432-437 of the `DOMContentLoaded` listener: `initGalaxy()` when
`window.THREE` is present, `handleGalaxyError()` otherwise. -/
def onDOMContentLoaded (hasTHREE : Bool) (cfg : GalaxyConfig) (planets : List PlanetConfig)
    (rnd : ℕ → ℝ) (fault : Option InitStep) (s : State) : State :=
  if hasTHREE then initGalaxy cfg planets rnd fault s else handleGalaxyError s

/-- What the host can do after the page has loaded: run one queued
animation-frame callback, deliver a `mousemove`, deliver a `resize`. -/
inductive Event where
  | animationFrame
  | mousemove (clientX clientY innerWidth innerHeight : ℝ)
  | resize

/-- One event delivered to the page.  An animation frame dequeues one callback
registered by `requestAnimationFrame(animate)` and calls it; with an empty
queue there is nothing to call. -/
def step (s : State) : Event → State
  | .animationFrame =>
      if s.rafQueue = 0 then s else animate { s with rafQueue := s.rafQueue - 1 }
  | .mousemove clientX clientY innerWidth innerHeight =>
      onMouseMove clientX clientY innerWidth innerHeight s
  | .resize => onResize s

/-- A sequence of events delivered in order. -/
def run (s : State) (events : List Event) : State :=
  events.foldl step s

/-- `n` consecutive calls of `animate` with no pointer event in between. -/
def frames (n : ℕ) (s : State) : State :=
  animate^[n] s

/-- One frame per pointer sample: the `mousemove` listener runs on the sample,
then `animate` is called. -/
def framesWithPointer (s : State) (samples : List (ℝ × ℝ × ℝ × ℝ)) : State :=
  samples.foldl (fun st e => animate (onMouseMove e.1 e.2.1 e.2.2.1 e.2.2.2 st)) s

/-! ## The shipped configuration -/

/-- The channels of `new THREE.Color(hex)` for a 24-bit colour, each byte
divided by 255. -/
def hexColor (r g b : ℕ) : Color :=
  { r := (r : ℝ) / 255, g := (g : ℝ) / 255, b := (b : ℝ) / 255 }

/-- The constant `CONFIG.galaxy` of lines 3-14. -/
def CONFIG.galaxy : GalaxyConfig :=
  { particleCount := 8000
    maxRadius := 300
    branches := 4
    spin := 0.01
    colors :=
      { inner := hexColor 0x8B 0x5C 0xF6
        middle := hexColor 0x06 0xB6 0xD4
        outer := hexColor 0xEC 0x48 0x99 } }

/-- The constant `CONFIG.planets` of lines 15-20. -/
def CONFIG.planets : List PlanetConfig :=
  [ { radius := 20, position := ⟨180, 80, -60⟩, speed := 0.002 },
    { radius := 15, position := ⟨-150, 100, -50⟩, speed := 0.003 },
    { radius := 12, position := ⟨120, -80, -55⟩, speed := 0.0015 },
    { radius := 18, position := ⟨-100, -60, -70⟩, speed := 0.004 } ]


/-! ## Predicates and sample inputs -/

/-- All three channels of a colour lie in `[0, 1]`. -/
def Color.inUnit (c : Color) : Prop :=
  (0 ≤ c.r ∧ c.r ≤ 1) ∧ (0 ≤ c.g ∧ c.g ≤ 1) ∧ (0 ≤ c.b ∧ c.b ≤ 1)

/-- A configuration with two particles and otherwise the shipped values. -/
def sampleConfig : GalaxyConfig :=
  { particleCount := 2
    maxRadius := 300
    branches := 4
    spin := 0.01
    colors := CONFIG.galaxy.colors }

/-- Draws for particle 0 of the shipped configuration that put it outside the
disk of radius `maxRadius + 15`: the radial draw gives `radius = 299`, the two
planar jitter draws are `0.99`, the sign draw of `randomX` is `0.5` (sign `-1`)
and that of `randomZ` is `0` (sign `+1`). -/
def overshootDraws : ℕ → ℝ := fun k =>
  if k = 0 then (299 / 300 : ℝ) ^ (5 / 3 : ℝ)
  else if k = 1 then 0.99
  else if k = 2 then 0.5
  else if k = 5 then 0.99
  else 0

/-- Draws for a one-particle configuration with `radius = 0`: both planar
jitter terms are `0.99 ^ 3 * 15`. -/
def cornerDraws : ℕ → ℝ := fun k => if k = 1 ∨ k = 5 then 0.99 else 0

/-- A configuration with one particle, `maxRadius = 1`, one branch, no spin. -/
def unitConfig : GalaxyConfig :=
  { particleCount := 1
    maxRadius := 1
    branches := 1
    spin := 0
    colors := CONFIG.galaxy.colors }

/-- The offset of `camera.position.x` from `mouseX * 0.5`, the value at which
the assignment of line 261 leaves it unchanged. -/
def cameraErrorX (s : State) : ℝ :=
  s.camera.x - s.mouseX * 0.5

/-- The offset of `camera.position.y` from `-mouseY * 0.3 + 30`, the value at
which the assignment of line 262 leaves it unchanged. -/
def cameraErrorY (s : State) : ℝ :=
  s.camera.y - (-s.mouseY * 0.3 + 30)

/-- The number of indices `i < particleCount` with `i % branches = k`: the
particles whose `branchAngle` is that of arm `k`. -/
def armCount (cfg : GalaxyConfig) (k : ℕ) : ℕ :=
  ((List.range cfg.particleCount).filter (fun i => i % cfg.branches = k)).length

/-- A planet as `createPlanets` makes it from the first entry of
`CONFIG.planets`, moved off its orbit. -/
def samplePlanet : Planet :=
  { createPlanet ⟨20, ⟨180, 80, -60⟩, 0.002⟩ with position := ⟨1, 2, 3⟩ }

/-- A state in which `initGalaxy` has succeeded, with one planet, no point
cloud, the pointer at `(1, -2)` and the camera at `(5, 7, 120)`. -/
def sampleState : State :=
  { isInitialized := true
    time := 0
    mouseX := 1
    mouseY := -2
    camera := ⟨5, 7, 120⟩
    galaxySystem := none
    planetMeshes := [samplePlanet]
    rafQueue := 1
    canvasHidden := false }

/-- The statements of the `try` block that precede `isInitialized = true`
(line 54): all but the call `animate()` of line 55. -/
def InitStep.beforeFlag : InitStep → Bool
  | .firstFrame => false
  | _ => true

/-- The page after `DOMContentLoaded` with the library present, the shipped
configuration, and an exception leaving the first `animate()` call at
`renderer.render`. -/
def firstFrameFaultState : State :=
  onDOMContentLoaded true CONFIG.galaxy CONFIG.planets (fun _ => 1 / 2)
    (some InitStep.firstFrame) State.initial

/-! ## The loop of `createGalaxy` -/

theorem galaxyLoop_zero (cfg : GalaxyConfig) (rnd : ℕ → ℝ) :
    galaxyLoop cfg rnd 0 = GalaxyBuffers.alloc cfg.particleCount := by
  simp [galaxyLoop]

theorem galaxyLoop_succ (cfg : GalaxyConfig) (rnd : ℕ → ℝ) (n : ℕ) :
    galaxyLoop cfg rnd (n + 1) = galaxyBody cfg rnd (galaxyLoop cfg rnd n) n := by
  simp [galaxyLoop, List.range_succ, List.foldl_append]

theorem galaxyLoop_cursor (cfg : GalaxyConfig) (rnd : ℕ → ℝ) (n : ℕ) :
    (galaxyLoop cfg rnd n).cursor = 8 * n := by
  induction n with
  | zero => simp [galaxyLoop_zero, GalaxyBuffers.alloc]
  | succ n ih =>
    rw [galaxyLoop_succ]
    simp only [galaxyBody, ih]
    ring

theorem galaxyLoop_lengths (cfg : GalaxyConfig) (rnd : ℕ → ℝ) (n : ℕ) :
    (galaxyLoop cfg rnd n).positions.length = cfg.particleCount * 3 ∧
      (galaxyLoop cfg rnd n).colors.length = cfg.particleCount * 3 ∧
      (galaxyLoop cfg rnd n).sizes.length = cfg.particleCount := by
  induction n with
  | zero => simp [galaxyLoop_zero, GalaxyBuffers.alloc]
  | succ n ih =>
    rw [galaxyLoop_succ]
    simpa [galaxyBody] using ih

/-- Reading a list after three consecutive writes at `i * 3`, `i * 3 + 1` and
`i * 3 + 2`, all three inside the list. -/
theorem getElem?_set_triple (l : List ℝ) (a b c : ℝ) (i j : ℕ) (h : i * 3 + 2 < l.length) :
    (((l.set (i * 3) a).set (i * 3 + 1) b).set (i * 3 + 2) c)[j]? =
      if j = i * 3 then some a
      else if j = i * 3 + 1 then some b
      else if j = i * 3 + 2 then some c
      else l[j]? := by
  simp only [List.getElem?_set, List.length_set]
  by_cases h0 : j = i * 3
  · subst h0
    have : i * 3 < l.length := by omega
    simp [this]
  · by_cases h1 : j = i * 3 + 1
    · subst h1
      have : i * 3 + 1 < l.length := by omega
      simp [this]
    · by_cases h2 : j = i * 3 + 2
      · subst h2
        simp [h]
      · have e0 : ¬ i * 3 = j := fun e => h0 e.symm
        have e1 : ¬ i * 3 + 1 = j := fun e => h1 e.symm
        have e2 : ¬ i * 3 + 2 = j := fun e => h2 e.symm
        simp [h0, h1, h2, e0, e1, e2]

/-- After `n` iterations, the slots of every index `i < n` hold what iteration
`i` wrote, and iteration `i` was entered with cursor `8 * i`. -/
theorem galaxyLoop_written (cfg : GalaxyConfig) (rnd : ℕ → ℝ) (n : ℕ)
    (hn : n ≤ cfg.particleCount) (i : ℕ) (hi : i < n) :
    (galaxyLoop cfg rnd n).positions[i * 3]? = some (particlePosition cfg rnd (8 * i) i).x ∧
    (galaxyLoop cfg rnd n).positions[i * 3 + 1]? = some (particlePosition cfg rnd (8 * i) i).y ∧
    (galaxyLoop cfg rnd n).positions[i * 3 + 2]? = some (particlePosition cfg rnd (8 * i) i).z ∧
    (galaxyLoop cfg rnd n).colors[i * 3]? = some (particleColor cfg rnd (8 * i)).r ∧
    (galaxyLoop cfg rnd n).colors[i * 3 + 1]? = some (particleColor cfg rnd (8 * i)).g ∧
    (galaxyLoop cfg rnd n).colors[i * 3 + 2]? = some (particleColor cfg rnd (8 * i)).b ∧
    (galaxyLoop cfg rnd n).sizes[i]? = some (particleSize rnd (8 * i)) := by
  induction n with
  | zero => omega
  | succ n ih =>
    obtain ⟨hp, hc, hs⟩ := galaxyLoop_lengths cfg rnd n
    have hcur := galaxyLoop_cursor cfg rnd n
    have hbp : n * 3 + 2 < (galaxyLoop cfg rnd n).positions.length := by omega
    have hbc : n * 3 + 2 < (galaxyLoop cfg rnd n).colors.length := by omega
    have hbs : n < (galaxyLoop cfg rnd n).sizes.length := by omega
    rw [galaxyLoop_succ]
    simp only [galaxyBody, hcur]
    simp only [getElem?_set_triple _ _ _ _ _ _ hbp, getElem?_set_triple _ _ _ _ _ _ hbc,
      List.getElem?_set]
    by_cases hin : i = n
    · subst hin
      simp [hbs]
    · have hlt : i < n := by omega
      obtain ⟨h1, h2, h3, h4, h5, h6, h7⟩ := ih (by omega) hlt
      have a0 : ¬ i * 3 = n * 3 := by omega
      have a1 : ¬ i * 3 = n * 3 + 1 := by omega
      have a2 : ¬ i * 3 = n * 3 + 2 := by omega
      have b0 : ¬ i * 3 + 1 = n * 3 := by omega
      have b1 : ¬ i * 3 + 1 = n * 3 + 1 := by omega
      have b2 : ¬ i * 3 + 1 = n * 3 + 2 := by omega
      have c0 : ¬ i * 3 + 2 = n * 3 := by omega
      have c1 : ¬ i * 3 + 2 = n * 3 + 1 := by omega
      have c2 : ¬ i * 3 + 2 = n * 3 + 2 := by omega
      have d0 : ¬ n = i := fun e => hin e.symm
      simp only [a0, a1, a2, b0, b1, b2, c0, c1, c2, d0, if_false]
      exact ⟨h1, h2, h3, h4, h5, h6, h7⟩


/-- Two random streams that agree on the first `8 * n` draws drive the first
`n` iterations of the loop to the same arrays and cursor. -/
theorem galaxyLoop_congr (cfg : GalaxyConfig) (rnd₁ rnd₂ : ℕ → ℝ) (n : ℕ)
    (h : ∀ k, k < 8 * n → rnd₁ k = rnd₂ k) :
    galaxyLoop cfg rnd₁ n = galaxyLoop cfg rnd₂ n := by
  induction n with
  | zero => simp [galaxyLoop_zero]
  | succ n ih =>
    have ih2 := ih (fun k hk => h k (by omega))
    have hc := galaxyLoop_cursor cfg rnd₂ n
    rw [galaxyLoop_succ, galaxyLoop_succ, ih2]
    simp only [galaxyBody, particlePosition, particleColor, particleSize, hc]
    rw [h (8 * n) (by omega), h (8 * n + 1) (by omega), h (8 * n + 2) (by omega),
      h (8 * n + 3) (by omega), h (8 * n + 4) (by omega), h (8 * n + 5) (by omega),
      h (8 * n + 6) (by omega), h (8 * n + 7) (by omega)]

/-! ## Determinism of `createGalaxy` in its random source -/

/-- C7: `createGalaxy` is a function of the configuration and of the draws it
consumes.  Iteration `i` of the loop is entered after exactly `8 * i` calls of
`Math.random`, the loop ends after `8 * particleCount` calls, and two runs
whose random sources agree on those `8 * particleCount` draws produce the same
`positions`, `colors` and `sizes` arrays. -/
theorem createGalaxy_deterministic (cfg : GalaxyConfig) (rnd₁ rnd₂ : ℕ → ℝ)
    (h : ∀ k, k < 8 * cfg.particleCount → rnd₁ k = rnd₂ k) :
    (∀ i, (galaxyLoop cfg rnd₁ i).cursor = 8 * i) ∧
      (createGalaxyBuffers cfg rnd₁).cursor = 8 * cfg.particleCount ∧
      (createGalaxy cfg rnd₁).positions = (createGalaxy cfg rnd₂).positions ∧
      (createGalaxy cfg rnd₁).colors = (createGalaxy cfg rnd₂).colors ∧
      (createGalaxy cfg rnd₁).sizes = (createGalaxy cfg rnd₂).sizes ∧
      createGalaxy cfg rnd₁ = createGalaxy cfg rnd₂ := by
  have e : createGalaxyBuffers cfg rnd₁ = createGalaxyBuffers cfg rnd₂ :=
    galaxyLoop_congr cfg rnd₁ rnd₂ cfg.particleCount h
  refine ⟨fun i => galaxyLoop_cursor cfg rnd₁ i, galaxyLoop_cursor cfg rnd₁ _, ?_, ?_, ?_, ?_⟩ <;>
    simp [createGalaxy, e]

/-- Two random sources that agree on the sixteen draws of `sampleConfig` and
differ afterwards. -/
theorem createGalaxy_deterministic_witness :
    (∀ i, (galaxyLoop sampleConfig (fun _ => 0) i).cursor = 8 * i) ∧
      (createGalaxyBuffers sampleConfig (fun _ => 0)).cursor = 8 * sampleConfig.particleCount ∧
      (createGalaxy sampleConfig (fun _ => 0)).positions =
        (createGalaxy sampleConfig (fun k => if k < 16 then 0 else 1 / 2)).positions ∧
      (createGalaxy sampleConfig (fun _ => 0)).colors =
        (createGalaxy sampleConfig (fun k => if k < 16 then 0 else 1 / 2)).colors ∧
      (createGalaxy sampleConfig (fun _ => 0)).sizes =
        (createGalaxy sampleConfig (fun k => if k < 16 then 0 else 1 / 2)).sizes ∧
      createGalaxy sampleConfig (fun _ => 0) =
        createGalaxy sampleConfig (fun k => if k < 16 then 0 else 1 / 2) :=
  createGalaxy_deterministic sampleConfig (fun _ => 0) (fun k => if k < 16 then 0 else 1 / 2)
    (by
      intro k hk
      have : k < 16 := by simpa [sampleConfig] using hk
      simp [this])


/-! ## Arithmetic of one particle -/

theorem lerp_mem_unit (a b t : ℝ) (ha : 0 ≤ a ∧ a ≤ 1) (hb : 0 ≤ b ∧ b ≤ 1)
    (ht : 0 ≤ t ∧ t ≤ 1) : 0 ≤ a + (b - a) * t ∧ a + (b - a) * t ≤ 1 := by
  obtain ⟨ha0, ha1⟩ := ha
  obtain ⟨hb0, hb1⟩ := hb
  obtain ⟨ht0, ht1⟩ := ht
  constructor
  · nlinarith [mul_nonneg ht0 hb0, mul_nonneg (sub_nonneg.2 ht1) ha0]
  · nlinarith [mul_nonneg ht0 (sub_nonneg.2 hb1),
      mul_nonneg (sub_nonneg.2 ht1) (sub_nonneg.2 ha1)]

theorem Color.lerp_inUnit (c target : Color) (t : ℝ) (hc : c.inUnit) (ht : target.inUnit)
    (h : 0 ≤ t ∧ t ≤ 1) : (c.lerp target t).inUnit :=
  ⟨lerp_mem_unit _ _ _ hc.1 ht.1 h, lerp_mem_unit _ _ _ hc.2.1 ht.2.1 h,
    lerp_mem_unit _ _ _ hc.2.2 ht.2.2 h⟩

/-- The normalised radius `radius / maxRadius` is the draw raised to `0.6`. -/
theorem radiusOf_div (cfg : GalaxyConfig) (u : ℝ) (hmax : cfg.maxRadius ≠ 0) :
    radiusOf cfg u / cfg.maxRadius = u ^ (0.6 : ℝ) := by
  unfold radiusOf
  field_simp

theorem rpow_draw_mem_unit (u : ℝ) (hu : 0 ≤ u ∧ u < 1) :
    0 ≤ u ^ (0.6 : ℝ) ∧ u ^ (0.6 : ℝ) ≤ 1 :=
  ⟨Real.rpow_nonneg hu.1 _, Real.rpow_le_one hu.1 hu.2.le (by norm_num)⟩

theorem radiusOf_bounds (cfg : GalaxyConfig) (u : ℝ) (hmax : 0 < cfg.maxRadius)
    (hu : 0 ≤ u ∧ u < 1) : 0 ≤ radiusOf cfg u ∧ radiusOf cfg u ≤ cfg.maxRadius := by
  obtain ⟨h0, h1⟩ := rpow_draw_mem_unit u hu
  unfold radiusOf
  constructor
  · positivity
  · nlinarith

theorem jitter_sq_le (u v scale : ℝ) (hu : 0 ≤ u ∧ u < 1) :
    jitter u v scale ^ 2 ≤ scale ^ 2 := by
  have h3 : u ^ 3 ≤ 1 := pow_le_one₀ hu.1 hu.2.le
  have h0 : 0 ≤ u ^ 3 := pow_nonneg hu.1 3
  have h6 : (u ^ 3) ^ 2 ≤ 1 := pow_le_one₀ h0 h3
  unfold jitter
  split_ifs
  · nlinarith [sq_nonneg scale]
  · nlinarith [sq_nonneg scale]

/-- A point at distance `r` from the axis, displaced by at most 15 along each
planar axis, is at distance at most `r + 15 * √2`. -/
theorem planar_bound (c s r jx jz : ℝ) (hcs : c ^ 2 + s ^ 2 = 1) (hr : 0 ≤ r)
    (hx : jx ^ 2 ≤ 225) (hz : jz ^ 2 ≤ 225) :
    Real.sqrt ((c * r + jx) ^ 2 + (s * r + jz) ^ 2) ≤ r + 15 * Real.sqrt 2 := by
  have hw : 0 ≤ Real.sqrt 2 := Real.sqrt_nonneg 2
  have hw2 : Real.sqrt 2 ^ 2 = 2 := Real.sq_sqrt (by norm_num)
  have hdot : c * jx + s * jz ≤ 15 * Real.sqrt 2 := by
    by_contra hlt
    push_neg at hlt
    have h1 : (15 * Real.sqrt 2) ^ 2 < (c * jx + s * jz) ^ 2 :=
      pow_lt_pow_left₀ hlt (by positivity) (by norm_num)
    have h2 : (c * jx + s * jz) ^ 2 + (c * jz - s * jx) ^ 2
        = (c ^ 2 + s ^ 2) * (jx ^ 2 + jz ^ 2) := by
      ring
    rw [hcs, one_mul] at h2
    nlinarith [sq_nonneg (c * jz - s * jx)]
  rw [Real.sqrt_le_iff]
  refine ⟨by positivity, ?_⟩
  have e : (c * r + jx) ^ 2 + (s * r + jz) ^ 2
      = (c ^ 2 + s ^ 2) * r ^ 2 + 2 * r * (c * jx + s * jz) + (jx ^ 2 + jz ^ 2) := by ring
  rw [e, hcs]
  nlinarith [mul_le_mul_of_nonneg_left hdot hr]

/-- What `createGalaxy` leaves in the slots of particle `i`. -/
theorem createGalaxy_written (cfg : GalaxyConfig) (rnd : ℕ → ℝ) (i : ℕ)
    (hi : i < cfg.particleCount) :
    (createGalaxy cfg rnd).positions[i * 3]? = some (particlePosition cfg rnd (8 * i) i).x ∧
    (createGalaxy cfg rnd).positions[i * 3 + 1]? = some (particlePosition cfg rnd (8 * i) i).y ∧
    (createGalaxy cfg rnd).positions[i * 3 + 2]? = some (particlePosition cfg rnd (8 * i) i).z ∧
    (createGalaxy cfg rnd).colors[i * 3]? = some (particleColor cfg rnd (8 * i)).r ∧
    (createGalaxy cfg rnd).colors[i * 3 + 1]? = some (particleColor cfg rnd (8 * i)).g ∧
    (createGalaxy cfg rnd).colors[i * 3 + 2]? = some (particleColor cfg rnd (8 * i)).b ∧
    (createGalaxy cfg rnd).sizes[i]? = some (particleSize rnd (8 * i)) :=
  galaxyLoop_written cfg rnd cfg.particleCount le_rfl i hi


/-! ## Colour of a particle -/

theorem CONFIG_colors_inUnit :
    CONFIG.galaxy.colors.inner.inUnit ∧ CONFIG.galaxy.colors.middle.inUnit ∧
      CONFIG.galaxy.colors.outer.inUnit := by
  simp only [CONFIG.galaxy, hexColor, Color.inUnit]
  norm_num

/-- C2: for a configuration with non-zero `maxRadius` and anchor colours in
`[0, 1]`, and a radial draw `u` of particle `i` in `[0, 1)`, the colour that
`createGalaxy` stores for particle `i` is
`lerp(lerp(inner, middle, t1), outer, t2)` with `t1 = radius / maxRadius` and
`t2 = sqrt(radius / maxRadius)`, where `lerp(a, b, t) = a + (b - a) * t` on
each channel, and its three channels lie in `[0, 1]`. -/
theorem createGalaxy_color_inUnit (cfg : GalaxyConfig) (rnd : ℕ → ℝ) (i : ℕ)
    (hi : i < cfg.particleCount) (hmax : cfg.maxRadius ≠ 0)
    (hinner : cfg.colors.inner.inUnit) (hmiddle : cfg.colors.middle.inUnit)
    (houter : cfg.colors.outer.inUnit) (hu : 0 ≤ rnd (8 * i) ∧ rnd (8 * i) < 1) :
    ∃ col : Color,
      col = (cfg.colors.inner.lerp cfg.colors.middle
              (radiusOf cfg (rnd (8 * i)) / cfg.maxRadius)).lerp cfg.colors.outer
              (Real.sqrt (radiusOf cfg (rnd (8 * i)) / cfg.maxRadius)) ∧
      (∀ a b : Color, ∀ t : ℝ, a.lerp b t =
        ⟨a.r + (b.r - a.r) * t, a.g + (b.g - a.g) * t, a.b + (b.b - a.b) * t⟩) ∧
      (createGalaxy cfg rnd).colors[i * 3]? = some col.r ∧
      (createGalaxy cfg rnd).colors[i * 3 + 1]? = some col.g ∧
      (createGalaxy cfg rnd).colors[i * 3 + 2]? = some col.b ∧
      col.inUnit := by
  obtain ⟨-, -, -, h4, h5, h6, -⟩ := createGalaxy_written cfg rnd i hi
  have ht := rpow_draw_mem_unit _ hu
  have hdiv := radiusOf_div cfg (rnd (8 * i)) hmax
  have hsqrt : (radiusOf cfg (rnd (8 * i)) / cfg.maxRadius) ^ (0.5 : ℝ)
      = Real.sqrt (radiusOf cfg (rnd (8 * i)) / cfg.maxRadius) := by
    rw [Real.sqrt_eq_rpow]
    norm_num
  have hcol : particleColor cfg rnd (8 * i)
      = (cfg.colors.inner.lerp cfg.colors.middle
          (radiusOf cfg (rnd (8 * i)) / cfg.maxRadius)).lerp cfg.colors.outer
          (Real.sqrt (radiusOf cfg (rnd (8 * i)) / cfg.maxRadius)) := by
    simp only [particleColor, mixedColor, hsqrt]
  refine ⟨particleColor cfg rnd (8 * i), hcol, fun a b t => rfl, h4, h5, h6, ?_⟩
  rw [hcol, hdiv]
  have hs : 0 ≤ Real.sqrt (rnd (8 * i) ^ (0.6 : ℝ)) ∧ Real.sqrt (rnd (8 * i) ^ (0.6 : ℝ)) ≤ 1 :=
    ⟨Real.sqrt_nonneg _, Real.sqrt_le_one.2 ht.2⟩
  exact Color.lerp_inUnit _ _ _ (Color.lerp_inUnit _ _ _ hinner hmiddle ht) houter hs


/-- Particle 1 of `sampleConfig` with every draw equal to `1 / 2`. -/
theorem createGalaxy_color_inUnit_witness :
    ∃ col : Color,
      col = (sampleConfig.colors.inner.lerp sampleConfig.colors.middle
              (radiusOf sampleConfig ((fun _ => 1 / 2 : ℕ → ℝ) (8 * 1)) /
                sampleConfig.maxRadius)).lerp sampleConfig.colors.outer
              (Real.sqrt (radiusOf sampleConfig ((fun _ => 1 / 2 : ℕ → ℝ) (8 * 1)) /
                sampleConfig.maxRadius)) ∧
      (∀ a b : Color, ∀ t : ℝ, a.lerp b t =
        ⟨a.r + (b.r - a.r) * t, a.g + (b.g - a.g) * t, a.b + (b.b - a.b) * t⟩) ∧
      (createGalaxy sampleConfig (fun _ => 1 / 2)).colors[1 * 3]? = some col.r ∧
      (createGalaxy sampleConfig (fun _ => 1 / 2)).colors[1 * 3 + 1]? = some col.g ∧
      (createGalaxy sampleConfig (fun _ => 1 / 2)).colors[1 * 3 + 2]? = some col.b ∧
      col.inUnit :=
  createGalaxy_color_inUnit sampleConfig (fun _ => 1 / 2) 1 (by simp [sampleConfig])
    (by simp [sampleConfig]) CONFIG_colors_inUnit.1 CONFIG_colors_inUnit.2.1
    CONFIG_colors_inUnit.2.2 (by norm_num)

/-! ## Planar radius of a particle -/

/-- C1, as amended: for a configuration with `maxRadius > 0` and
`branches ≥ 1`, an index `i < particleCount` and draws in `[0, 1)`, the coordinates `x` and `z` that
`createGalaxy` writes for particle `i` are
`cos(branchAngle + spinAngle) * r + jitterX` and
`sin(branchAngle + spinAngle) * r + jitterZ`, and they satisfy
`sqrt(x^2 + z^2) ≤ maxRadius + 15 * sqrt 2`: the two jitter terms are bounded
by 15 each, so together they displace the particle by up to `15 * sqrt 2`. -/
theorem createGalaxy_planar_radius_le (cfg : GalaxyConfig) (rnd : ℕ → ℝ) (i : ℕ)
    (hmax : 0 < cfg.maxRadius) (_hb : 1 ≤ cfg.branches) (hi : i < cfg.particleCount)
    (hu : ∀ k, 0 ≤ rnd k ∧ rnd k < 1) :
    ∃ x z : ℝ,
      (createGalaxy cfg rnd).positions[i * 3]? = some x ∧
      (createGalaxy cfg rnd).positions[i * 3 + 2]? = some z ∧
      x = Real.cos (branchAngle cfg i + radiusOf cfg (rnd (8 * i)) * cfg.spin) *
            radiusOf cfg (rnd (8 * i)) + jitter (rnd (8 * i + 1)) (rnd (8 * i + 2)) 15 ∧
      z = Real.sin (branchAngle cfg i + radiusOf cfg (rnd (8 * i)) * cfg.spin) *
            radiusOf cfg (rnd (8 * i)) + jitter (rnd (8 * i + 5)) (rnd (8 * i + 6)) 15 ∧
      Real.sqrt (x ^ 2 + z ^ 2) ≤ cfg.maxRadius + 15 * Real.sqrt 2 := by
  obtain ⟨h1, -, h3, -⟩ := createGalaxy_written cfg rnd i hi
  refine ⟨_, _, h1, h3, rfl, rfl, ?_⟩
  obtain ⟨hr0, hr1⟩ := radiusOf_bounds cfg (rnd (8 * i)) hmax (hu _)
  have hx := jitter_sq_le (rnd (8 * i + 1)) (rnd (8 * i + 2)) 15 (hu _)
  have hz := jitter_sq_le (rnd (8 * i + 5)) (rnd (8 * i + 6)) 15 (hu _)
  have hb := planar_bound
    (Real.cos (branchAngle cfg i + radiusOf cfg (rnd (8 * i)) * cfg.spin))
    (Real.sin (branchAngle cfg i + radiusOf cfg (rnd (8 * i)) * cfg.spin))
    (radiusOf cfg (rnd (8 * i))) (jitter (rnd (8 * i + 1)) (rnd (8 * i + 2)) 15)
    (jitter (rnd (8 * i + 5)) (rnd (8 * i + 6)) 15) (Real.cos_sq_add_sin_sq _) hr0
    (by norm_num at hx ⊢; exact hx) (by norm_num at hz ⊢; exact hz)
  simp only [particlePosition]
  linarith

/-- Particle 1 of `sampleConfig` with every draw equal to `1 / 2`. -/
theorem createGalaxy_planar_radius_le_witness :
    ∃ x z : ℝ,
      (createGalaxy sampleConfig (fun _ => 1 / 2)).positions[1 * 3]? = some x ∧
      (createGalaxy sampleConfig (fun _ => 1 / 2)).positions[1 * 3 + 2]? = some z ∧
      x = Real.cos (branchAngle sampleConfig 1 +
              radiusOf sampleConfig ((fun _ => 1 / 2 : ℕ → ℝ) (8 * 1)) * sampleConfig.spin) *
            radiusOf sampleConfig ((fun _ => 1 / 2 : ℕ → ℝ) (8 * 1)) +
            jitter ((fun _ => 1 / 2 : ℕ → ℝ) (8 * 1 + 1))
              ((fun _ => 1 / 2 : ℕ → ℝ) (8 * 1 + 2)) 15 ∧
      z = Real.sin (branchAngle sampleConfig 1 +
              radiusOf sampleConfig ((fun _ => 1 / 2 : ℕ → ℝ) (8 * 1)) * sampleConfig.spin) *
            radiusOf sampleConfig ((fun _ => 1 / 2 : ℕ → ℝ) (8 * 1)) +
            jitter ((fun _ => 1 / 2 : ℕ → ℝ) (8 * 1 + 5))
              ((fun _ => 1 / 2 : ℕ → ℝ) (8 * 1 + 6)) 15 ∧
      Real.sqrt (x ^ 2 + z ^ 2) ≤ sampleConfig.maxRadius + 15 * Real.sqrt 2 :=
  createGalaxy_planar_radius_le sampleConfig (fun _ => 1 / 2) 1 (by simp [sampleConfig])
    (by simp [sampleConfig]) (by simp [sampleConfig]) (fun _ => by norm_num)


theorem cos_two_ninety_nine_le : Real.cos (2.99 : ℝ) ≤ -0.988 := by
  have h1 := Real.pi_gt_d6
  have h2 := Real.pi_lt_d6
  have e : (2.99 : ℝ) = Real.pi - (Real.pi - 2.99) := by ring
  rw [e, Real.cos_pi_sub]
  have := Real.one_sub_sq_div_two_le_cos (x := Real.pi - 2.99)
  nlinarith

theorem le_sin_two_ninety_nine : (0.15 : ℝ) ≤ Real.sin (2.99 : ℝ) := by
  have h1 := Real.pi_gt_d6
  have h2 := Real.pi_lt_d6
  have e : (2.99 : ℝ) = Real.pi - (Real.pi - 2.99) := by ring
  rw [e, Real.sin_pi_sub]
  have := Real.sin_gt_sub_cube (x := Real.pi - 2.99) (by linarith) (by linarith)
  have h3 : (Real.pi - 2.99) ^ 3 ≤ 0.16 ^ 3 :=
    pow_le_pow_left₀ (by linarith) (by linarith) 3
  nlinarith

theorem overshootDraws_mem_unit (k : ℕ) : 0 ≤ overshootDraws k ∧ overshootDraws k < 1 := by
  unfold overshootDraws
  split_ifs
  · exact ⟨Real.rpow_nonneg (by norm_num) _,
      Real.rpow_lt_one (by norm_num) (by norm_num) (by norm_num)⟩
  all_goals norm_num

theorem overshoot_radius : radiusOf CONFIG.galaxy (overshootDraws 0) = 299 := by
  have hpow : ((299 / 300 : ℝ) ^ (5 / 3 : ℝ)) ^ (0.6 : ℝ) = 299 / 300 := by
    rw [← Real.rpow_mul (by norm_num)]
    norm_num
  simp only [radiusOf, overshootDraws, if_true, hpow, CONFIG.galaxy]
  norm_num

/-- C1 fails on the shipped configuration: with the draws `overshootDraws`
(each in `[0, 1)`), particle 0 of `CONFIG.galaxy` has `radius = 299`,
`branchAngle + spinAngle = 2.99`, `jitterX = -(0.99^3) * 15` and
`jitterZ = 0.99^3 * 15`, which puts it at `x < -309.9`, `z > 59.3`, farther
than `maxRadius + 15 = 315` from the vertical axis. -/
theorem createGalaxy_planar_radius_counterexample :
    0 < CONFIG.galaxy.maxRadius ∧ 1 ≤ CONFIG.galaxy.branches ∧
      0 < CONFIG.galaxy.particleCount ∧
      (∀ k, 0 ≤ overshootDraws k ∧ overshootDraws k < 1) ∧
      ∃ x z : ℝ,
        (createGalaxy CONFIG.galaxy overshootDraws).positions[0 * 3]? = some x ∧
        (createGalaxy CONFIG.galaxy overshootDraws).positions[0 * 3 + 2]? = some z ∧
        x = Real.cos (branchAngle CONFIG.galaxy 0 +
                radiusOf CONFIG.galaxy (overshootDraws 0) * CONFIG.galaxy.spin) *
              radiusOf CONFIG.galaxy (overshootDraws 0) +
              jitter (overshootDraws 1) (overshootDraws 2) 15 ∧
        z = Real.sin (branchAngle CONFIG.galaxy 0 +
                radiusOf CONFIG.galaxy (overshootDraws 0) * CONFIG.galaxy.spin) *
              radiusOf CONFIG.galaxy (overshootDraws 0) +
              jitter (overshootDraws 5) (overshootDraws 6) 15 ∧
        ¬ Real.sqrt (x ^ 2 + z ^ 2) ≤ CONFIG.galaxy.maxRadius + 15 := by
  have hcount : 0 < CONFIG.galaxy.particleCount := by simp [CONFIG.galaxy]
  obtain ⟨h1, -, h3, -⟩ := createGalaxy_written CONFIG.galaxy overshootDraws 0 hcount
  refine ⟨by simp [CONFIG.galaxy], by simp [CONFIG.galaxy], hcount, overshootDraws_mem_unit,
    _, _, h1, h3, rfl, rfl, ?_⟩
  have hb : branchAngle CONFIG.galaxy 0 = 0 := by simp [branchAngle]
  have hangle : (0 : ℝ) + 299 * CONFIG.galaxy.spin = 2.99 := by
    simp only [CONFIG.galaxy]
    norm_num
  have hjx : jitter (overshootDraws 1) (overshootDraws 2) 15 = -(0.99 ^ 3 * 15) := by
    simp only [jitter, overshootDraws]
    norm_num
  have hjz : jitter (overshootDraws 5) (overshootDraws 6) 15 = 0.99 ^ 3 * 15 := by
    simp only [jitter, overshootDraws]
    norm_num
  have hmax : CONFIG.galaxy.maxRadius = 300 := by simp [CONFIG.galaxy]
  simp only [particlePosition, Nat.mul_zero, Nat.zero_add, hb, overshoot_radius, hangle, hjx,
    hjz, hmax]
  have hc := cos_two_ninety_nine_le
  have hs := le_sin_two_ninety_nine
  rw [not_le, Real.lt_sqrt (by norm_num)]
  have hx : Real.cos 2.99 * 299 + -(0.99 ^ 3 * 15) ≤ -309.9 := by nlinarith
  have hz : (59.3 : ℝ) ≤ Real.sin 2.99 * 299 + 0.99 ^ 3 * 15 := by nlinarith
  nlinarith

/-- The same overshoot on a configuration where it can be read off without
trigonometry: with `radius = 0` the particle sits at
`(0.99^3 * 15, _, 0.99^3 * 15)`, at distance above 20 from the axis, while
`maxRadius + 15 = 16`. -/
theorem createGalaxy_planar_radius_corner :
    ∃ x z : ℝ,
      (createGalaxy unitConfig cornerDraws).positions[0]? = some x ∧
      (createGalaxy unitConfig cornerDraws).positions[2]? = some z ∧
      x = 0.99 ^ 3 * 15 ∧ z = 0.99 ^ 3 * 15 ∧
      unitConfig.maxRadius + 15 < Real.sqrt (x ^ 2 + z ^ 2) := by
  have hcount : 0 < unitConfig.particleCount := by simp [unitConfig]
  obtain ⟨h1, -, h3, -⟩ := createGalaxy_written unitConfig cornerDraws 0 hcount
  have hr : radiusOf unitConfig (cornerDraws 0) = 0 := by
    have h0 : (0 : ℝ) ^ (0.6 : ℝ) = 0 := Real.zero_rpow (by norm_num)
    simp [radiusOf, cornerDraws, h0]
  have hjx : jitter (cornerDraws 1) (cornerDraws 2) 15 = 0.99 ^ 3 * 15 := by
    simp only [jitter, cornerDraws]
    norm_num
  have hjz : jitter (cornerDraws 5) (cornerDraws 6) 15 = 0.99 ^ 3 * 15 := by
    simp only [jitter, cornerDraws]
    norm_num
  have hx : (particlePosition unitConfig cornerDraws (8 * 0) 0).x = 0.99 ^ 3 * 15 := by
    simp only [particlePosition, Nat.mul_zero, Nat.zero_add, hr, hjx]
    norm_num
  have hz : (particlePosition unitConfig cornerDraws (8 * 0) 0).z = 0.99 ^ 3 * 15 := by
    simp only [particlePosition, Nat.mul_zero, Nat.zero_add, hr, hjz]
    norm_num
  refine ⟨_, _, by simpa using h1, by simpa using h3, hx, hz, ?_⟩
  rw [hx, hz, Real.lt_sqrt (by simp only [unitConfig]; norm_num)]
  simp only [unitConfig]
  norm_num


/-! ## `createPlanets` -/

theorem createPlanets_eq_append (planets : List PlanetConfig) (acc : List Planet) :
    createPlanets planets acc = acc ++ planets.map createPlanet := by
  induction planets generalizing acc with
  | nil => simp [createPlanets]
  | cons pc rest ih =>
    have := ih (acc ++ [createPlanet pc])
    simp only [createPlanets, List.foldl_cons] at this ⊢
    rw [this]
    simp

/-- C5: run on an empty `planetMeshes`, `createPlanets` makes one body per
descriptor, in order; the body of a descriptor with starting position
`(x0, y0, z0)` has `orbitRadius = sqrt(x0^2 + z0^2)`, whatever `y0` is, carries
`speed` and the starting position unchanged in its `userData`, is placed at the
starting position, and has `orbitRadius = 0` when `x0 = 0` and `z0 = 0`. -/
theorem createPlanets_userData (planets : List PlanetConfig) :
    (createPlanets planets []).length = planets.length ∧
      (∀ k : ℕ, (createPlanets planets [])[k]? = (planets[k]?).map createPlanet) ∧
      (∀ pc : PlanetConfig,
        (createPlanet pc).userData.orbitRadius
            = Real.sqrt (pc.position.x ^ 2 + pc.position.z ^ 2) ∧
          (createPlanet pc).userData.speed = pc.speed ∧
          (createPlanet pc).userData.originalPosition = pc.position ∧
          (createPlanet pc).position = pc.position) ∧
      (∀ radius speed x0 y0 y1 z0 : ℝ,
        (createPlanet ⟨radius, ⟨x0, y0, z0⟩, speed⟩).userData.orbitRadius
          = (createPlanet ⟨radius, ⟨x0, y1, z0⟩, speed⟩).userData.orbitRadius) ∧
      (∀ radius speed y0 : ℝ,
        (createPlanet ⟨radius, ⟨0, y0, 0⟩, speed⟩).userData.orbitRadius = 0) := by
  refine ⟨?_, ?_, fun pc => ⟨rfl, rfl, rfl, rfl⟩, fun _ _ _ _ _ _ => rfl, ?_⟩
  · simp [createPlanets_eq_append]
  · intro k
    simp [createPlanets_eq_append]
  · intro radius speed y0
    simp [createPlanet]

theorem createPlanets_orbitRadius_nonneg (planets : List PlanetConfig) :
    ∀ p ∈ createPlanets planets [], 0 ≤ p.userData.orbitRadius := by
  intro p hp
  rw [createPlanets_eq_append] at hp
  simp only [List.nil_append, List.mem_map] at hp
  obtain ⟨pc, -, rfl⟩ := hp
  exact Real.sqrt_nonneg _

/-! ## One call of `animate` -/

theorem animate_of_initialized (s : State) (h : s.isInitialized = true) :
    animate s =
      { s with
        rafQueue := s.rafQueue + 1
        time := s.time + 0.01
        galaxySystem := s.galaxySystem.map fun g =>
          { g with rotationY := (s.time + 0.01) * 0.1, uTime := s.time + 0.01 }
        planetMeshes := s.planetMeshes.map (animatePlanet (s.time + 0.01))
        camera := cameraStep s.mouseX s.mouseY s.camera } := by
  simp [animate, h]

theorem animate_of_not_initialized (s : State) (h : s.isInitialized = false) :
    animate s = s := by
  simp [animate, h]

/-- C4: the position that the frame update gives a body at time `t` is
`(cos(t * speed) * R, sin(t * speed) * R)` in the plane, with `R` its
`orbitRadius`, and it is the same at time `t + 2 * pi / speed`.  (For
`speed = 0` the quotient is `0` in the real field and the two times
coincide.) -/
theorem animatePlanet_periodic (planet : Planet) (t : ℝ) :
    (animatePlanet t planet).position.x
        = Real.cos (t * planet.userData.speed) * planet.userData.orbitRadius ∧
      (animatePlanet t planet).position.z
        = Real.sin (t * planet.userData.speed) * planet.userData.orbitRadius ∧
      (Real.cos (t * planet.userData.speed) * planet.userData.orbitRadius,
          Real.sin (t * planet.userData.speed) * planet.userData.orbitRadius)
        = (Real.cos ((t + 2 * Real.pi / planet.userData.speed) * planet.userData.speed)
              * planet.userData.orbitRadius,
            Real.sin ((t + 2 * Real.pi / planet.userData.speed) * planet.userData.speed)
              * planet.userData.orbitRadius) ∧
      (animatePlanet (t + 2 * Real.pi / planet.userData.speed) planet).position
        = (animatePlanet t planet).position := by
  have hangle : Real.cos ((t + 2 * Real.pi / planet.userData.speed) * planet.userData.speed)
        = Real.cos (t * planet.userData.speed) ∧
      Real.sin ((t + 2 * Real.pi / planet.userData.speed) * planet.userData.speed)
        = Real.sin (t * planet.userData.speed) := by
    by_cases hs : planet.userData.speed = 0
    · simp [hs]
    · have e : (t + 2 * Real.pi / planet.userData.speed) * planet.userData.speed
          = t * planet.userData.speed + 2 * Real.pi := by
        field_simp
      rw [e, Real.cos_add_two_pi, Real.sin_add_two_pi]
      exact ⟨rfl, rfl⟩
  refine ⟨rfl, rfl, ?_, ?_⟩
  · rw [hangle.1, hangle.2]
  · simp only [animatePlanet, hangle.1, hangle.2]

/-- C9: one call of `animate` in an initialised state leaves `camera.z`
unchanged, keeps the number of bodies, and for the body at every index keeps
its vertical coordinate `y`, its `speed`, its `orbitRadius` and its
`originalPosition`, and adds exactly `speed * 2` to its self-rotation. -/
theorem animate_frame (s : State) (h : s.isInitialized = true) :
    (animate s).camera.z = s.camera.z ∧
      (animate s).planetMeshes.length = s.planetMeshes.length ∧
      ∀ (k : ℕ) (p : Planet), s.planetMeshes[k]? = some p →
        ∃ q : Planet, (animate s).planetMeshes[k]? = some q ∧
          q.position.y = p.position.y ∧
          q.userData.speed = p.userData.speed ∧
          q.userData.orbitRadius = p.userData.orbitRadius ∧
          q.userData.originalPosition = p.userData.originalPosition ∧
          q.rotationY = p.rotationY + p.userData.speed * 2 := by
  rw [animate_of_initialized s h]
  refine ⟨rfl, by simp, ?_⟩
  intro k p hk
  refine ⟨animatePlanet (s.time + 0.01) p, ?_, rfl, rfl, rfl, rfl, rfl⟩
  simp [List.getElem?_map, hk]

/-- One frame on `sampleState`. -/
theorem animate_frame_witness :
    (animate sampleState).camera.z = sampleState.camera.z ∧
      (animate sampleState).planetMeshes.length = sampleState.planetMeshes.length ∧
      ∀ (k : ℕ) (p : Planet), sampleState.planetMeshes[k]? = some p →
        ∃ q : Planet, (animate sampleState).planetMeshes[k]? = some q ∧
          q.position.y = p.position.y ∧
          q.userData.speed = p.userData.speed ∧
          q.userData.orbitRadius = p.userData.orbitRadius ∧
          q.userData.originalPosition = p.userData.originalPosition ∧
          q.rotationY = p.rotationY + p.userData.speed * 2 :=
  animate_frame sampleState rfl


/-! ## Camera smoothing -/

theorem frames_succ (n : ℕ) (s : State) : frames (n + 1) s = animate (frames n s) := by
  simp only [frames, Function.iterate_succ_apply']

theorem frames_invariant (n : ℕ) (s : State) (h : s.isInitialized = true) :
    (frames n s).isInitialized = true ∧ (frames n s).mouseX = s.mouseX ∧
      (frames n s).mouseY = s.mouseY := by
  induction n with
  | zero => simp [frames, h]
  | succ n ih =>
    rw [frames_succ, animate_of_initialized _ ih.1]
    exact ⟨ih.1, ih.2.1, ih.2.2⟩

theorem cameraError_animate (s : State) (h : s.isInitialized = true) :
    cameraErrorX (animate s) = 0.98 * cameraErrorX s ∧
      cameraErrorY (animate s) = 0.98 * cameraErrorY s := by
  rw [animate_of_initialized s h]
  simp only [cameraErrorX, cameraErrorY, cameraStep]
  constructor <;> ring

theorem cameraError_frames (n : ℕ) (s : State) (h : s.isInitialized = true) :
    cameraErrorX (frames n s) = 0.98 ^ n * cameraErrorX s ∧
      cameraErrorY (frames n s) = 0.98 ^ n * cameraErrorY s := by
  induction n with
  | zero => simp [frames]
  | succ n ih =>
    obtain ⟨hx, hy⟩ := cameraError_animate (frames n s) (frames_invariant n s h).1
    rw [frames_succ, hx, hy, ih.1, ih.2]
    constructor <;> ring

/-- A geometric sequence of ratio `0.98` falls below every positive bound
and stays there. -/
theorem decay_eventually_small (a eps : ℝ) (heps : 0 < eps) :
    ∃ N : ℕ, ∀ n : ℕ, N ≤ n → |0.98 ^ n * a| < eps := by
  have hpos : 0 < eps / (|a| + 1) := by positivity
  obtain ⟨N, hN⟩ := exists_pow_lt_of_lt_one hpos (by norm_num : (0.98 : ℝ) < 1)
  refine ⟨N, fun n hn => ?_⟩
  have hmono : (0.98 : ℝ) ^ n ≤ 0.98 ^ N :=
    pow_le_pow_of_le_one (by norm_num) (by norm_num) hn
  have hnn : (0 : ℝ) ≤ 0.98 ^ n := by positivity
  rw [abs_mul, abs_of_nonneg hnn]
  have h1 : 0.98 ^ n * |a| ≤ 0.98 ^ N * |a| :=
    mul_le_mul_of_nonneg_right hmono (abs_nonneg a)
  have h2 : 0.98 ^ N * (|a| + 1) < eps := by
    have := (lt_div_iff₀ (by positivity : (0 : ℝ) < |a| + 1)).1 hN
    exact this
  have h3 : (0 : ℝ) < 0.98 ^ N := by positivity
  nlinarith [abs_nonneg a]

/-- C3: in an initialised state, with the pointer offset left as it is, every
further call of `animate` keeps `mouseX` and `mouseY`, multiplies the signed
offset of `camera.x` from `mouseX * 0.5` and that of `camera.y` from
`-mouseY * 0.3 + 30` by `0.98`, so each offset keeps its sign and does not grow
in magnitude, and for every `eps > 0` there is an `N` such that after every
`n ≥ N` frames both offsets are below `eps` in magnitude. -/
theorem camera_converges (s : State) (h : s.isInitialized = true) :
    (∀ n : ℕ, (frames n s).mouseX = s.mouseX ∧ (frames n s).mouseY = s.mouseY) ∧
      (∀ n : ℕ,
        (frames (n + 1) s).camera.x - s.mouseX * 0.5
            = 0.98 * ((frames n s).camera.x - s.mouseX * 0.5) ∧
          (frames (n + 1) s).camera.y - (-s.mouseY * 0.3 + 30)
            = 0.98 * ((frames n s).camera.y - (-s.mouseY * 0.3 + 30))) ∧
      (∀ n : ℕ,
        |cameraErrorX (frames (n + 1) s)| ≤ |cameraErrorX (frames n s)| ∧
          |cameraErrorY (frames (n + 1) s)| ≤ |cameraErrorY (frames n s)|) ∧
      (∀ n : ℕ,
        (0 ≤ cameraErrorX (frames n s) → 0 ≤ cameraErrorX (frames (n + 1) s)) ∧
          (cameraErrorX (frames n s) ≤ 0 → cameraErrorX (frames (n + 1) s) ≤ 0) ∧
          (0 ≤ cameraErrorY (frames n s) → 0 ≤ cameraErrorY (frames (n + 1) s)) ∧
          (cameraErrorY (frames n s) ≤ 0 → cameraErrorY (frames (n + 1) s) ≤ 0)) ∧
      ∀ eps : ℝ, 0 < eps →
        ∃ N : ℕ, ∀ n : ℕ, N ≤ n →
          |(frames n s).camera.x - s.mouseX * 0.5| < eps ∧
            |(frames n s).camera.y - (-s.mouseY * 0.3 + 30)| < eps := by
  have hstep : ∀ n : ℕ,
      cameraErrorX (frames (n + 1) s) = 0.98 * cameraErrorX (frames n s) ∧
        cameraErrorY (frames (n + 1) s) = 0.98 * cameraErrorY (frames n s) := by
    intro n
    rw [frames_succ]
    exact cameraError_animate _ (frames_invariant n s h).1
  have hmouse : ∀ n : ℕ, (frames n s).mouseX = s.mouseX ∧ (frames n s).mouseY = s.mouseY :=
    fun n => (frames_invariant n s h).2
  have hex : ∀ n : ℕ, (frames n s).camera.x - s.mouseX * 0.5 = cameraErrorX (frames n s) := by
    intro n
    simp only [cameraErrorX, (hmouse n).1]
  have hey : ∀ n : ℕ,
      (frames n s).camera.y - (-s.mouseY * 0.3 + 30) = cameraErrorY (frames n s) := by
    intro n
    simp only [cameraErrorY, (hmouse n).2]
  refine ⟨hmouse, ?_, ?_, ?_, ?_⟩
  · intro n
    rw [hex, hex, hey, hey]
    exact hstep n
  · intro n
    obtain ⟨hx, hy⟩ := hstep n
    rw [hx, hy, abs_mul, abs_mul]
    have h98 : |(0.98 : ℝ)| = 0.98 := abs_of_nonneg (by norm_num)
    rw [h98]
    constructor
    · nlinarith [abs_nonneg (cameraErrorX (frames n s))]
    · nlinarith [abs_nonneg (cameraErrorY (frames n s))]
  · intro n
    obtain ⟨hx, hy⟩ := hstep n
    rw [hx, hy]
    refine ⟨fun h0 => ?_, fun h0 => ?_, fun h0 => ?_, fun h0 => ?_⟩ <;> nlinarith
  · intro eps heps
    obtain ⟨Nx, hNx⟩ := decay_eventually_small (cameraErrorX s) eps heps
    obtain ⟨Ny, hNy⟩ := decay_eventually_small (cameraErrorY s) eps heps
    refine ⟨max Nx Ny, fun n hn => ?_⟩
    obtain ⟨cx, cy⟩ := cameraError_frames n s h
    rw [hex, hey, cx, cy]
    exact ⟨hNx n (le_trans (le_max_left _ _) hn), hNy n (le_trans (le_max_right _ _) hn)⟩

/-- The camera of `sampleState`, which starts at `(5, 7, 120)` with target
`(0.5, 30.6)`. -/
theorem camera_converges_witness :
    (∀ n : ℕ, (frames n sampleState).mouseX = sampleState.mouseX ∧
        (frames n sampleState).mouseY = sampleState.mouseY) ∧
      (∀ n : ℕ,
        (frames (n + 1) sampleState).camera.x - sampleState.mouseX * 0.5
            = 0.98 * ((frames n sampleState).camera.x - sampleState.mouseX * 0.5) ∧
          (frames (n + 1) sampleState).camera.y - (-sampleState.mouseY * 0.3 + 30)
            = 0.98 * ((frames n sampleState).camera.y - (-sampleState.mouseY * 0.3 + 30))) ∧
      (∀ n : ℕ,
        |cameraErrorX (frames (n + 1) sampleState)| ≤ |cameraErrorX (frames n sampleState)| ∧
          |cameraErrorY (frames (n + 1) sampleState)|
            ≤ |cameraErrorY (frames n sampleState)|) ∧
      (∀ n : ℕ,
        (0 ≤ cameraErrorX (frames n sampleState) →
            0 ≤ cameraErrorX (frames (n + 1) sampleState)) ∧
          (cameraErrorX (frames n sampleState) ≤ 0 →
            cameraErrorX (frames (n + 1) sampleState) ≤ 0) ∧
          (0 ≤ cameraErrorY (frames n sampleState) →
            0 ≤ cameraErrorY (frames (n + 1) sampleState)) ∧
          (cameraErrorY (frames n sampleState) ≤ 0 →
            cameraErrorY (frames (n + 1) sampleState) ≤ 0)) ∧
      ∀ eps : ℝ, 0 < eps →
        ∃ N : ℕ, ∀ n : ℕ, N ≤ n →
          |(frames n sampleState).camera.x - sampleState.mouseX * 0.5| < eps ∧
            |(frames n sampleState).camera.y - (-sampleState.mouseY * 0.3 + 30)| < eps :=
  camera_converges sampleState rfl


/-! ## Closed form of the frame update -/

theorem framesWithPointer_snoc (s : State) (samples : List (ℝ × ℝ × ℝ × ℝ))
    (e : ℝ × ℝ × ℝ × ℝ) :
    framesWithPointer s (samples ++ [e]) =
      animate (onMouseMove e.1 e.2.1 e.2.2.1 e.2.2.2 (framesWithPointer s samples)) := by
  simp [framesWithPointer, List.foldl_append]

/-- What every frame preserves: the flag, the `userData` of every body and
the presence of the point cloud; and the time after the frames. -/
theorem framesWithPointer_invariant (s : State) (h : s.isInitialized = true)
    (samples : List (ℝ × ℝ × ℝ × ℝ)) :
    (framesWithPointer s samples).isInitialized = true ∧
      (framesWithPointer s samples).time = s.time + (samples.length : ℝ) * 0.01 ∧
      (framesWithPointer s samples).planetMeshes.map Planet.userData
        = s.planetMeshes.map Planet.userData ∧
      (framesWithPointer s samples).galaxySystem.isSome = s.galaxySystem.isSome := by
  induction samples using List.reverseRecOn with
  | nil => simp [framesWithPointer, h]
  | append_singleton samples e ih =>
    obtain ⟨h1, h2, h3, h4⟩ := ih
    have hi : (onMouseMove e.1 e.2.1 e.2.2.1 e.2.2.2
        (framesWithPointer s samples)).isInitialized = true := h1
    rw [framesWithPointer_snoc, animate_of_initialized _ hi]
    refine ⟨h1, ?_, ?_, ?_⟩
    · simp only [onMouseMove, h2, List.length_append, List.length_singleton, Nat.cast_add,
        Nat.cast_one]
      ring
    · simp only [onMouseMove, List.map_map]
      rw [← h3]
      rfl
    · simp only [onMouseMove, Option.isSome_map']
      exact h4

/-- C8: starting from `time = 0` in an initialised state whose bodies have a
non-negative `orbitRadius` (as `createPlanets` makes them), after `n ≥ 1`
frames, each preceded by an arbitrary pointer sample, and whatever the
positions of the bodies were before: `time = n * 0.01`, the point cloud, if
there is one, has `rotation.y = n * 0.01 * 0.1`, and the body at every index is
at `(cos(n * 0.01 * speed) * orbitRadius, sin(n * 0.01 * speed) * orbitRadius)`
in the plane, at distance exactly `orbitRadius` from the vertical axis. -/
theorem frames_closed_form (s : State) (samples : List (ℝ × ℝ × ℝ × ℝ))
    (hinit : s.isInitialized = true) (htime : s.time = 0) (hn : 1 ≤ samples.length)
    (hR : ∀ p ∈ s.planetMeshes, 0 ≤ p.userData.orbitRadius) :
    (framesWithPointer s samples).time = (samples.length : ℝ) * 0.01 ∧
      (framesWithPointer s samples).galaxySystem.isSome = s.galaxySystem.isSome ∧
      (∀ g : GalaxySystem, (framesWithPointer s samples).galaxySystem = some g →
        g.rotationY = (samples.length : ℝ) * 0.01 * 0.1) ∧
      ∀ (k : ℕ) (p : Planet), s.planetMeshes[k]? = some p →
        ∃ q : Planet, (framesWithPointer s samples).planetMeshes[k]? = some q ∧
          q.position.x
            = Real.cos ((samples.length : ℝ) * 0.01 * p.userData.speed)
                * p.userData.orbitRadius ∧
          q.position.z
            = Real.sin ((samples.length : ℝ) * 0.01 * p.userData.speed)
                * p.userData.orbitRadius ∧
          Real.sqrt (q.position.x ^ 2 + q.position.z ^ 2) = p.userData.orbitRadius := by
  obtain ⟨-, h2, -, h4⟩ := framesWithPointer_invariant s hinit samples
  rw [htime, zero_add] at h2
  refine ⟨h2, h4, ?_⟩
  clear h2 h4
  rcases List.eq_nil_or_concat samples with hnil | ⟨front, e, hsnoc⟩
  · simp [hnil] at hn
  rw [List.concat_eq_append] at hsnoc
  subst hsnoc
  obtain ⟨f1, f2, f3, -⟩ := framesWithPointer_invariant s hinit front
  rw [htime, zero_add] at f2
  have hi : (onMouseMove e.1 e.2.1 e.2.2.1 e.2.2.2
      (framesWithPointer s front)).isInitialized = true := f1
  have ht : (onMouseMove e.1 e.2.1 e.2.2.1 e.2.2.2 (framesWithPointer s front)).time + 0.01
      = ((front ++ [e]).length : ℝ) * 0.01 := by
    simp only [onMouseMove, f2, List.length_append, List.length_singleton, Nat.cast_add,
      Nat.cast_one]
    ring
  rw [framesWithPointer_snoc, animate_of_initialized _ hi, ht]
  constructor
  · intro g hg
    simp only [onMouseMove, Option.map_eq_some'] at hg
    obtain ⟨g0, -, rfl⟩ := hg
    rfl
  · intro k p hk
    have hud : ((framesWithPointer s front).planetMeshes.map Planet.userData)[k]?
        = some p.userData := by
      rw [f3, List.getElem?_map, hk]
      rfl
    rw [List.getElem?_map] at hud
    obtain ⟨p0, hp0, hp0u⟩ := Option.map_eq_some'.1 hud
    refine ⟨animatePlanet (((front ++ [e]).length : ℝ) * 0.01) p0, ?_, ?_, ?_, ?_⟩
    · simp only [onMouseMove, List.getElem?_map, hp0]
      rfl
    · simp only [animatePlanet, hp0u]
    · simp only [animatePlanet, hp0u]
    · have hnn : 0 ≤ p.userData.orbitRadius := hR p (List.getElem?_mem hk)
      simp only [animatePlanet, hp0u]
      have e2 : (Real.cos (((front ++ [e]).length : ℝ) * 0.01 * p.userData.speed)
              * p.userData.orbitRadius) ^ 2
            + (Real.sin (((front ++ [e]).length : ℝ) * 0.01 * p.userData.speed)
              * p.userData.orbitRadius) ^ 2
          = p.userData.orbitRadius ^ 2 := by
        have := Real.cos_sq_add_sin_sq (((front ++ [e]).length : ℝ) * 0.01 * p.userData.speed)
        linear_combination p.userData.orbitRadius ^ 2 * this
      rw [e2, Real.sqrt_sq hnn]

/-- Three frames on `sampleState`, with three different pointer samples. -/
theorem frames_closed_form_witness :
    (framesWithPointer sampleState [(0, 0, 800, 600), (10, 20, 800, 600), (400, 300, 800, 600)]).time
        = (([(0, 0, 800, 600), (10, 20, 800, 600), (400, 300, 800, 600)] :
            List (ℝ × ℝ × ℝ × ℝ)).length : ℝ) * 0.01 ∧
      (∀ p ∈ sampleState.planetMeshes, 0 ≤ p.userData.orbitRadius) :=
  ⟨(frames_closed_form sampleState [(0, 0, 800, 600), (10, 20, 800, 600), (400, 300, 800, 600)]
      rfl rfl (by simp)
      (by
        intro p hp
        simp only [sampleState, List.mem_singleton] at hp
        subst hp
        exact Real.sqrt_nonneg _)).1,
    by
      intro p hp
      simp only [sampleState, List.mem_singleton] at hp
      subst hp
      exact Real.sqrt_nonneg _⟩


/-! ## Spiral arms -/

/-- The number of `i < n` with `i % b = k`, for `k < b`. -/
theorem filter_mod_length (n b k : ℕ) (hk : k < b) :
    ((List.range n).filter (fun i => i % b = k)).length
      = n / b + if k < n % b then 1 else 0 := by
  have hb : 0 < b := by omega
  have hcount : ((List.range n).filter (fun i => i % b = k)).length
      = Nat.count (fun x => x ≡ k [MOD b]) n := by
    induction n with
    | zero => simp
    | succ n ih =>
      rw [List.range_succ, List.filter_append, List.length_append, ih, Nat.count_succ]
      by_cases h : n % b = k
      · have h2 : n ≡ k [MOD b] := by
          unfold Nat.ModEq
          rw [h, Nat.mod_eq_of_lt hk]
        simp [h, h2]
      · have h2 : ¬ n ≡ k [MOD b] := by
          unfold Nat.ModEq
          rw [Nat.mod_eq_of_lt hk]
          exact h
        simp [h, h2]
  rw [hcount, Nat.count_modEq_card n hb k, Nat.mod_eq_of_lt hk]

/-- C10: for `branches ≥ 1`, `branchAngle i = (i mod branches) * 2 * pi /
branches` lies in `[0, 2 * pi)` and is the same for two indices with the same
remainder modulo `branches`; every index falls in an arm `k < branches`, and
arm `k` receives `floor(particleCount / branches)` of the indices below
`particleCount`, or one more.  In the shipped configuration (8000 particles,
4 branches) every arm receives exactly 2000. -/
theorem branch_partition (cfg : GalaxyConfig) (hb : 1 ≤ cfg.branches) :
    (∀ i : ℕ, branchAngle cfg i
        = ((i % cfg.branches : ℕ) : ℝ) * (2 * Real.pi) / (cfg.branches : ℝ)) ∧
      (∀ i : ℕ, 0 ≤ branchAngle cfg i ∧ branchAngle cfg i < 2 * Real.pi) ∧
      (∀ i j : ℕ, i % cfg.branches = j % cfg.branches →
        branchAngle cfg i = branchAngle cfg j) ∧
      (∀ i : ℕ, i % cfg.branches < cfg.branches) ∧
      (∀ k : ℕ, k < cfg.branches →
        armCount cfg k = cfg.particleCount / cfg.branches ∨
          armCount cfg k = cfg.particleCount / cfg.branches + 1) ∧
      (∀ k : ℕ, k < CONFIG.galaxy.branches → armCount CONFIG.galaxy k = 2000) := by
  have hbpos : (0 : ℝ) < (cfg.branches : ℝ) := by exact_mod_cast hb
  have hpi := Real.pi_pos
  refine ⟨fun i => ?_, fun i => ⟨?_, ?_⟩, fun i j hij => ?_, fun i => Nat.mod_lt _ hb,
    fun k hk => ?_, fun k hk => ?_⟩
  · unfold branchAngle
    ring
  · unfold branchAngle
    positivity
  · unfold branchAngle
    have hlt : ((i % cfg.branches : ℕ) : ℝ) < (cfg.branches : ℝ) := by
      exact_mod_cast Nat.mod_lt i hb
    rw [div_lt_iff₀ hbpos]
    nlinarith
  · unfold branchAngle
    rw [hij]
  · unfold armCount
    rw [filter_mod_length _ _ _ hk]
    split_ifs
    · exact Or.inr rfl
    · exact Or.inl rfl
  · unfold armCount
    rw [filter_mod_length _ _ _ hk]
    simp [CONFIG.galaxy]

/-- The arms of `sampleConfig`: two particles over four branches. -/
theorem branch_partition_witness :
    (∀ i : ℕ, 0 ≤ branchAngle sampleConfig i ∧ branchAngle sampleConfig i < 2 * Real.pi) ∧
      (∀ k : ℕ, k < sampleConfig.branches →
        armCount sampleConfig k = sampleConfig.particleCount / sampleConfig.branches ∨
          armCount sampleConfig k
            = sampleConfig.particleCount / sampleConfig.branches + 1) :=
  ⟨(branch_partition sampleConfig (by simp [sampleConfig])).2.1,
    (branch_partition sampleConfig (by simp [sampleConfig])).2.2.2.2.1⟩

/-! ## The disabled state -/

/-- With the flag down, no event changes anything but the pointer offset and
the length of the callback queue, which can only shrink: `animate` returns at
its guard, so nothing is scheduled and the frame body does not run. -/
theorem run_not_initialized (s : State) (h : s.isInitialized = false) (events : List Event) :
    (run s events).isInitialized = false ∧ (run s events).time = s.time ∧
      (run s events).camera = s.camera ∧ (run s events).galaxySystem = s.galaxySystem ∧
      (run s events).planetMeshes = s.planetMeshes ∧ (run s events).rafQueue ≤ s.rafQueue ∧
      (run s events).canvasHidden = s.canvasHidden := by
  induction events generalizing s with
  | nil => simp [run, h]
  | cons e rest ih =>
    have hstep : (step s e).isInitialized = false ∧ (step s e).time = s.time ∧
        (step s e).camera = s.camera ∧ (step s e).galaxySystem = s.galaxySystem ∧
        (step s e).planetMeshes = s.planetMeshes ∧ (step s e).rafQueue ≤ s.rafQueue ∧
        (step s e).canvasHidden = s.canvasHidden := by
      cases e with
      | animationFrame =>
        by_cases hq : s.rafQueue = 0
        · simp [step, hq, h]
        · simp [step, hq, animate, h]
      | mousemove clientX clientY innerWidth innerHeight => simp [step, onMouseMove, h]
      | resize => simp [step, onResize, h]
    obtain ⟨r1, r2, r3, r4, r5, r6, r7⟩ := ih (step s e) hstep.1
    obtain ⟨s1, s2, s3, s4, s5, s6, s7⟩ := hstep
    simp only [run, List.foldl_cons] at r1 r2 r3 r4 r5 r6 r7 ⊢
    exact ⟨r1, r2.trans s2, r3.trans s3, r4.trans s4, r5.trans s5, le_trans r6 s6,
      r7.trans s7⟩


/-- A fault in a set-up statement of the `try` block leaves the flag, the time
and the callback queue as they were and hides the canvas. -/
theorem initGalaxy_setup_fault (cfg : GalaxyConfig) (planets : List PlanetConfig)
    (rnd : ℕ → ℝ) (f : InitStep) (hf : f.beforeFlag = true) (s : State) :
    (initGalaxy cfg planets rnd (some f) s).isInitialized = s.isInitialized ∧
      (initGalaxy cfg planets rnd (some f) s).time = s.time ∧
      (initGalaxy cfg planets rnd (some f) s).rafQueue = s.rafQueue ∧
      (initGalaxy cfg planets rnd (some f) s).canvasHidden = true := by
  cases f <;>
    simp_all [initGalaxy, handleGalaxyError, initCamera, initGalaxySystem, initPlanets,
      InitStep.beforeFlag]

/-- The part of the disabled-state property that the code has: when the
library is absent, or a set-up statement of `initGalaxy` throws, the canvas is
hidden and no later sequence of events runs the frame body: the flag stays
down, `time` stays `0` and nothing is ever queued. -/
theorem disabled_after_setup_fault (hasTHREE : Bool) (cfg : GalaxyConfig)
    (planets : List PlanetConfig) (rnd : ℕ → ℝ) (f : InitStep)
    (hf : hasTHREE = false ∨ f.beforeFlag = true) (events : List Event) :
    (onDOMContentLoaded hasTHREE cfg planets rnd (some f) State.initial).canvasHidden = true ∧
      (run (onDOMContentLoaded hasTHREE cfg planets rnd (some f) State.initial)
        events).isInitialized = false ∧
      (run (onDOMContentLoaded hasTHREE cfg planets rnd (some f) State.initial)
        events).time = 0 ∧
      (run (onDOMContentLoaded hasTHREE cfg planets rnd (some f) State.initial)
        events).rafQueue = 0 := by
  have hpre : (onDOMContentLoaded hasTHREE cfg planets rnd (some f) State.initial).isInitialized
        = false ∧
      (onDOMContentLoaded hasTHREE cfg planets rnd (some f) State.initial).time = 0 ∧
      (onDOMContentLoaded hasTHREE cfg planets rnd (some f) State.initial).rafQueue = 0 ∧
      (onDOMContentLoaded hasTHREE cfg planets rnd (some f) State.initial).canvasHidden
        = true := by
    cases hT : hasTHREE with
    | false => simp [onDOMContentLoaded, handleGalaxyError, State.initial]
    | true =>
      have hb : f.beforeFlag = true := by
        rcases hf with h | h
        · simp [hT] at h
        · exact h
      obtain ⟨a, b, c, d⟩ := initGalaxy_setup_fault cfg planets rnd f hb State.initial
      simp only [onDOMContentLoaded, if_true]
      exact ⟨a, b, c, d⟩
  obtain ⟨p1, p2, p3, p4⟩ := hpre
  obtain ⟨r1, r2, -, -, -, r6, -⟩ := run_not_initialized _ p1 events
  exact ⟨p4, r1, r2.trans p2, Nat.le_zero.1 (r6.trans p3.le)⟩

/-- The disabled state is not reached when the exception of the `try` block
comes out of the first `animate()` call (line 55): `handleGalaxyError` has run
and the canvas is hidden, but `isInitialized` is `true`, the callback
registered at line 235 is still queued, and the next animation frame runs the
frame body: `time` goes from `0.01` to `0.02`, the rotation of the point cloud
from `0.001` to `0.002`, and a further callback is queued. -/
theorem firstFrame_fault_keeps_animating :
    firstFrameFaultState.canvasHidden = true ∧
      firstFrameFaultState.isInitialized = true ∧
      firstFrameFaultState.rafQueue = 1 ∧
      firstFrameFaultState.time = 0.01 ∧
      (step firstFrameFaultState Event.animationFrame).time = 0.02 ∧
      (step firstFrameFaultState Event.animationFrame).rafQueue = 1 ∧
      firstFrameFaultState.galaxySystem.map GalaxySystem.rotationY = some 0.001 ∧
      (step firstFrameFaultState Event.animationFrame).galaxySystem.map
        GalaxySystem.rotationY = some 0.002 := by
  have hs : firstFrameFaultState
      = handleGalaxyError (animate (setInitialized (initPlanets CONFIG.planets
          (initGalaxySystem CONFIG.galaxy (fun _ => 1 / 2) (initCamera State.initial))))) := by
    simp [firstFrameFaultState, onDOMContentLoaded, initGalaxy]
  have hinit : (setInitialized (initPlanets CONFIG.planets
      (initGalaxySystem CONFIG.galaxy (fun _ => 1 / 2)
        (initCamera State.initial)))).isInitialized = true := rfl
  rw [hs, animate_of_initialized _ hinit]
  simp only [step, handleGalaxyError, setInitialized, initPlanets, initGalaxySystem, initCamera,
    State.initial, cameraStep]
  norm_num [animate, cameraStep]

end Galaxy

end
